import Mathlib

/-!
Verification development for the svg2png-many batch converter
(`src/svg2png-many.js`).

The embedding translates the source into pure Lean definitions:

* the in-page dimension helpers `getSVGDimensions` / `setSVGDimensions`
  become functions over an explicit `SvgDoc` state (root element
  attributes, viewBox, plus a `faulty` flag modelling a DOM that throws,
  which the source catches and turns into an `{error}` marker);
* the per-job pipeline `convert` becomes a function from an environment
  describing the outcome of every external interaction (page creation,
  file read, `page.open` status, render) to a record of its result and
  of the observable events (page created/closed, which steps ran,
  viewport applied);
* the scheduler `convertMany` becomes a small-step transition system:
  a worker settling and a queued `processNext` continuation running are
  separate steps, matching the microtask granularity of the source,
  and the batch promise is a first-settlement-wins `Option` field.

JavaScript numbers are modelled as rationals (`ℚ`); JS truthiness of a
possibly-absent number (`undefined`, `NaN`, `0` are falsy) is modelled
by `truthy : Option ℚ → Bool`.
-/

/-- JS `Sizes` object: `{width?, height?}`, each field possibly absent.
`none` models `undefined` (and `NaN`, which is equally falsy wherever
the source tests a size). -/
structure Sizes where
  width : Option ℚ
  height : Option ℚ
deriving Repr, DecidableEq

/-- JS truthiness of an optional number: `undefined`/`NaN` (here `none`)
and `0` are falsy, every other number is truthy. -/
def truthy : Option ℚ → Bool
  | none => false
  | some v => decide (v ≠ 0)

/-- Value of a `width`/`height` attribute on the SVG root element, as the
source observes it through `getAttribute`/`parseFloat`:
`px v` is the string `"{v}px"` (what `setSVGDimensions` writes),
`num v` a plain numeric string, `percent v` a string ending in `%`,
`absent` a missing attribute (`getAttribute` yields `null`),
`junk` a non-numeric string (`parseFloat` yields `NaN`). -/
inductive AttrVal where
  | px (v : ℚ)
  | num (v : ℚ)
  | percent (v : ℚ)
  | absent
  | junk
deriving Repr, DecidableEq

/-- Model of the regex test `/%\s*$/.test(getAttribute(..) || "")`. -/
def AttrVal.isPercentStr : AttrVal → Bool
  | .percent _ => true
  | _ => false

/-- Model of `parseFloat(getAttribute(..))`: `none` is `NaN`.
Note `parseFloat("50%") = 50`, so `percent v` parses to `v`. -/
def AttrVal.parseFloatVal : AttrVal → Option ℚ
  | .px v => some v
  | .num v => some v
  | .percent v => some v
  | .absent => none
  | .junk => none

/-- State of the loaded SVG document's root element, as far as the two
in-page helpers observe and mutate it.  `faulty := true` models a DOM
whose element access throws; the source wraps both helpers in
`try/catch` and returns an `{error}` marker in that case. -/
structure SvgDoc where
  widthAttr : AttrVal
  heightAttr : AttrVal
  /-- `el.viewBox.animVal`; when the attribute is missing the SVG DOM
  reports a zero rect, which the model folds into `none`. -/
  viewBox : Option (ℚ × ℚ)
  faulty : Bool
deriving Repr, DecidableEq

/-- Result of an in-page `page.evaluate` call: either the returned value
or the `{error}` marker produced by the helper's `catch` branch. -/
inductive EvalRes (α : Type) where
  | ok (val : α)
  | evalError
deriving Repr, DecidableEq

/-- The effective declared dimension the source computes:
`var width = !widthIsPercent && parseFloat(el.getAttribute("width"))`.
A percent value gives `false`, a missing/junk one `NaN`; both are falsy
and both are folded into `none`. -/
def effDim (a : AttrVal) : Option ℚ :=
  if a.isPercentStr then none else a.parseFloatVal

/-- The viewBox width the source reads (`el.viewBox.animVal.width`);
a missing viewBox reports 0. -/
def vbWidth (doc : SvgDoc) : ℚ :=
  match doc.viewBox with
  | some (w, _) => w
  | none => 0

/-- The viewBox height the source reads (`el.viewBox.animVal.height`). -/
def vbHeight (doc : SvgDoc) : ℚ :=
  match doc.viewBox with
  | some (_, h) => h
  | none => 0

/-- Embedding of `getSVGDimensions` (source lines 235–265).  Returns
`ok (some ..)` for a determined size, `ok none` for the source's
`return null`, and `evalError` for the `catch` branch.  Division is
rational field division; the source and the specification use the very
same expression `width * viewBoxHeight / viewBoxWidth`. -/
def getSVGDimensions (doc : SvgDoc) : EvalRes (Option Sizes) :=
  if doc.faulty then .evalError
  else
    let width := effDim doc.widthAttr
    let height := effDim doc.heightAttr
    if truthy width ∧ truthy height then
      .ok (some ⟨width, height⟩)
    else if truthy width ∧ vbHeight doc ≠ 0 then
      .ok (some ⟨width, some (width.getD 0 * vbHeight doc / vbWidth doc)⟩)
    else if truthy height ∧ vbWidth doc ≠ 0 then
      .ok (some ⟨some (height.getD 0 * vbWidth doc / vbHeight doc), height⟩)
    else
      .ok none

/-- Embedding of `setSVGDimensions` (source lines 273–302).  The argument
is `Option Sizes` because the pipeline feeds it the previous evaluate
result, which can be `null` (then `sizes.height` throws a `TypeError`
that the `catch` turns into the error marker, before any DOM access).
For an object argument: if neither dimension is truthy the function
returns before touching the document; otherwise each truthy dimension
is written as a `px` attribute and each falsy one removed. -/
def setSVGDimensions (doc : SvgDoc) (sizes : Option Sizes) : SvgDoc × EvalRes Sizes :=
  match sizes with
  | none => (doc, .evalError)
  | some s =>
    if ¬ truthy s.width ∧ ¬ truthy s.height then (doc, .ok s)
    else if doc.faulty then (doc, .evalError)
    else
      let doc1 :=
        if truthy s.width then { doc with widthAttr := .px (s.width.getD 0) }
        else { doc with widthAttr := .absent }
      let doc2 :=
        if truthy s.height then { doc1 with heightAttr := .px (s.height.getD 0) }
        else { doc1 with heightAttr := .absent }
      (doc2, .ok s)

/-- Why a per-job pipeline failed, mirroring the failure points of
`convert` (source lines 147–191). -/
inductive ConvError where
  | createPageFailed
  | fileReadFailed
  | openFailed (msg : String)
  | evalFailed
  | renderFailed
deriving Repr, DecidableEq

/-- Outcome of one job: the rendered data or the error. -/
inductive JobOutcome where
  | success (data : String)
  | failure (e : ConvError)
deriving Repr, DecidableEq

/-- Environment for one run of `convert`: the outcome of every external
interaction the pipeline performs. -/
structure ConvEnv where
  /-- `instance.createPage()` resolves. -/
  pageCreated : Bool
  /-- `fileToBase64(srcPath)` (i.e. `fs.readFile`) resolves. -/
  contentOk : Bool
  /-- the status string `page.open` reports. -/
  openStatus : String
  /-- state of the loaded document when `page.open` succeeded. -/
  doc : SvgDoc
  /-- `page.renderBase64("PNG")` resolves. -/
  renderOk : Bool
  /-- the base64 payload on successful render. -/
  renderData : String
deriving Repr, DecidableEq

/-- Observable result of one run of `convert`: the outcome plus which
events happened (page created, page closed, dimension steps evaluated,
render attempted, viewport property applied). -/
structure ConvResult where
  outcome : JobOutcome
  pageCreated : Bool
  pageClosed : Bool
  dimensionStepRan : Bool
  renderRan : Bool
  viewport : Option Sizes
deriving Repr, DecidableEq

/-- Embedding of `convert` (source lines 147–191).  Faithful points:

* `Promise.all([instance.createPage(), fileToBase64(srcPath)])` rejects
  when the file read rejects even though the page was already created;
  the rejection skips the `then` handler that defines and calls
  `closePage`, so on that path the page is created but never closed;
* a non-`"success"` open status throws before any evaluate/render, and
  the chain's error handler closes the page;
* the dimension pipeline is `setSVGDimensions(size)` → check →
  `getSVGDimensions()` → check → `setSVGDimensions(dims)` → check →
  `page.property('viewportSize', dims)`, threading the document state;
* the error handler at the end of the chain closes the page on every
  failure inside the chain, and the success path closes it before
  returning. -/
def convert (src : String) (size : Sizes) (env : ConvEnv) : ConvResult :=
  if env.pageCreated = false then
    { outcome := .failure .createPageFailed, pageCreated := false, pageClosed := false,
      dimensionStepRan := false, renderRan := false, viewport := none }
  else if env.contentOk = false then
    { outcome := .failure .fileReadFailed, pageCreated := true, pageClosed := false,
      dimensionStepRan := false, renderRan := false, viewport := none }
  else if env.openStatus ≠ "success" then
    { outcome := .failure (.openFailed ("File " ++ src ++ " has been opened with status " ++ env.openStatus)),
      pageCreated := true, pageClosed := true,
      dimensionStepRan := false, renderRan := false, viewport := none }
  else
    let r1 := setSVGDimensions env.doc (some size)
    match r1.2 with
    | .evalError =>
      { outcome := .failure .evalFailed, pageCreated := true, pageClosed := true,
        dimensionStepRan := true, renderRan := false, viewport := none }
    | .ok _ =>
      match getSVGDimensions r1.1 with
      | .evalError =>
        { outcome := .failure .evalFailed, pageCreated := true, pageClosed := true,
          dimensionStepRan := true, renderRan := false, viewport := none }
      | .ok dims =>
        match (setSVGDimensions r1.1 dims).2 with
        | .evalError =>
          { outcome := .failure .evalFailed, pageCreated := true, pageClosed := true,
            dimensionStepRan := true, renderRan := false, viewport := none }
        | .ok applied =>
          if env.renderOk = false then
            { outcome := .failure .renderFailed, pageCreated := true, pageClosed := true,
              dimensionStepRan := true, renderRan := true, viewport := some applied }
          else
            { outcome := .success env.renderData, pageCreated := true, pageClosed := true,
              dimensionStepRan := true, renderRan := true, viewport := some applied }

/-- Conclusion of claim C5: branch-by-branch behaviour of
`getSVGDimensions` on a non-throwing document.  "Declared and
non-percentage width available" is formalised as the source's own
condition: the attribute is not percent-suffixed and parses to a truthy
(nonzero) number, i.e. `truthy (effDim ..)`. -/
def C5Concl (doc : SvgDoc) : Prop :=
  (truthy (effDim doc.widthAttr) = true → truthy (effDim doc.heightAttr) = true →
    getSVGDimensions doc = .ok (some ⟨effDim doc.widthAttr, effDim doc.heightAttr⟩)) ∧
  (truthy (effDim doc.heightAttr) = false → truthy (effDim doc.widthAttr) = true →
    vbHeight doc ≠ 0 →
    getSVGDimensions doc =
      .ok (some ⟨effDim doc.widthAttr,
        some ((effDim doc.widthAttr).getD 0 * vbHeight doc / vbWidth doc)⟩)) ∧
  (truthy (effDim doc.widthAttr) = false → truthy (effDim doc.heightAttr) = true →
    vbWidth doc ≠ 0 →
    getSVGDimensions doc =
      .ok (some ⟨some ((effDim doc.heightAttr).getD 0 * vbWidth doc / vbHeight doc),
        effDim doc.heightAttr⟩)) ∧
  (¬ (truthy (effDim doc.widthAttr) = true ∧ truthy (effDim doc.heightAttr) = true) →
    ¬ (truthy (effDim doc.widthAttr) = true ∧ vbHeight doc ≠ 0) →
    ¬ (truthy (effDim doc.heightAttr) = true ∧ vbWidth doc ≠ 0) →
    getSVGDimensions doc = .ok none) ∧
  (∀ v : ℚ, getSVGDimensions { doc with widthAttr := .percent v }
      = getSVGDimensions { doc with widthAttr := .absent }) ∧
  (∀ v : ℚ, getSVGDimensions { doc with heightAttr := .percent v }
      = getSVGDimensions { doc with heightAttr := .absent })

/-- Conclusion of claim C6: behaviour of `setSVGDimensions` on an object
argument — no-op when neither dimension is provided, set-as-px /
remove-attribute otherwise, error marker instead of a throw on a faulty
document. -/
def C6Concl (doc : SvgDoc) (s : Sizes) : Prop :=
  (truthy s.width = false → truthy s.height = false →
    setSVGDimensions doc (some s) = (doc, .ok s)) ∧
  ((truthy s.width = true ∨ truthy s.height = true) → doc.faulty = false →
    (setSVGDimensions doc (some s)).2 = .ok s ∧
    (setSVGDimensions doc (some s)).1.widthAttr
      = (if truthy s.width then .px (s.width.getD 0) else .absent) ∧
    (setSVGDimensions doc (some s)).1.heightAttr
      = (if truthy s.height then .px (s.height.getD 0) else .absent) ∧
    (setSVGDimensions doc (some s)).1.viewBox = doc.viewBox ∧
    (setSVGDimensions doc (some s)).1.faulty = doc.faulty) ∧
  ((truthy s.width = true ∨ truthy s.height = true) → doc.faulty = true →
    setSVGDimensions doc (some s) = (doc, .evalError))

/-- Conclusion of claim C8: a non-success open status yields a failure
whose message embeds both the source path and the status, and neither
the dimension steps nor the render run. -/
def C8Concl (src : String) (size : Sizes) (env : ConvEnv) : Prop :=
  (convert src size env).outcome
    = .failure (.openFailed ("File " ++ src ++ " has been opened with status " ++ env.openStatus)) ∧
  (∃ p q, "File " ++ src ++ " has been opened with status " ++ env.openStatus
      = p ++ src ++ q) ∧
  (∃ p q, "File " ++ src ++ " has been opened with status " ++ env.openStatus
      = p ++ env.openStatus ++ q) ∧
  (convert src size env).dimensionStepRan = false ∧
  (convert src size env).renderRan = false

/-- Conclusion of claim C10: a requested dimension of value 0 behaves
exactly like an omitted one — `setSVGDimensions` produces the same
document state and the same error-marker status, and a declared
attribute parsing to 0 makes `getSVGDimensions` behave as if the
attribute were absent. -/
def C10Concl (doc : SvgDoc) (s : Sizes) : Prop :=
  ((setSVGDimensions doc (some { s with width := some 0 })).1
      = (setSVGDimensions doc (some { s with width := none })).1) ∧
  ((setSVGDimensions doc (some { s with width := some 0 })).2 = .evalError
      ↔ (setSVGDimensions doc (some { s with width := none })).2 = .evalError) ∧
  ((setSVGDimensions doc (some { s with height := some 0 })).1
      = (setSVGDimensions doc (some { s with height := none })).1) ∧
  ((setSVGDimensions doc (some { s with height := some 0 })).2 = .evalError
      ↔ (setSVGDimensions doc (some { s with height := none })).2 = .evalError) ∧
  (getSVGDimensions { doc with widthAttr := .num 0 }
      = getSVGDimensions { doc with widthAttr := .absent }) ∧
  (getSVGDimensions { doc with widthAttr := .px 0 }
      = getSVGDimensions { doc with widthAttr := .absent }) ∧
  (getSVGDimensions { doc with heightAttr := .num 0 }
      = getSVGDimensions { doc with heightAttr := .absent }) ∧
  (getSVGDimensions { doc with heightAttr := .px 0 }
      = getSVGDimensions { doc with heightAttr := .absent })

/-- A concrete document with an intrinsic size different from 100×100,
used to exercise the pipeline claims. -/
def sampleDoc : SvgDoc :=
  { widthAttr := .num 640, heightAttr := .num 480,
    viewBox := some (64, 48), faulty := false }

/-- Environment in which page creation succeeds but the source file read
fails: the `Promise.all` rejection path of `convert`. -/
def contentFailEnv : ConvEnv :=
  { pageCreated := true, contentOk := false, openStatus := "success",
    doc := sampleDoc, renderOk := true, renderData := "" }

/-- One conversion job of the batch: its identity and its predetermined
outcome (whether `convert` + `saveBuffer` for this job eventually
succeeds). -/
structure Job where
  id : Nat
  ok : Bool
deriving Repr, DecidableEq

/-- Settlement of the batch promise of `convertMany`: `resolveAll` with
the results array or `rejectAll` with the errors array. -/
inductive Batch where
  | resolved (results : List Job)
  | rejected (errors : List Job)
deriving Repr, DecidableEq

/-- State of one run of `convertMany` (source lines 93–125):
`rest` is `restWorkers` after the initial `splice`, `active` the
started-but-unsettled workers, `results`/`errors` the two accumulator
arrays, `pn` the number of queued `processNext` continuations (each
settling worker queues one via `startWorker(w).then(processNext)`), and
`settled` the state of the returned promise (first settlement wins). -/
structure SchedState where
  rest : List Job
  active : List Job
  results : List Job
  errors : List Job
  pn : Nat
  settled : Option Batch
deriving Repr, DecidableEq

/-- Initial state of `convertMany`: `restWorkers.splice(0, poolCapacity)`
starts the first `min(capacity, N)` workers and leaves the rest. -/
def convertManyInit (jobs : List Job) (cap : Nat) : SchedState :=
  { rest := jobs.drop cap, active := jobs.take cap, results := [], errors := [],
    pn := 0, settled := none }

/-- Effect of one active worker settling: `startWorker`'s handler pushes
the job into `results` or `errors`, and the chained `.then(processNext)`
queues one `processNext` continuation. -/
def settleWorker (s : SchedState) (a₁ a₂ : List Job) (j : Job) : SchedState :=
  { rest := s.rest, active := a₁ ++ a₂,
    results := if j.ok then s.results ++ [j] else s.results,
    errors := if j.ok then s.errors else s.errors ++ [j],
    pn := s.pn + 1, settled := s.settled }

/-- Effect of one queued `processNext` continuation running (source
lines 109–120): pop (`Array.prototype.pop`, i.e. take from the end) and
start the next pending worker if any; else if all `N` jobs have
settled, reject with the errors when there are any, otherwise resolve
with the results — on a promise that only the first settlement
affects. -/
def processNextFn (N : Nat) (s : SchedState) : SchedState :=
  if s.rest.isEmpty then
    if N ≤ s.errors.length + s.results.length then
      { s with
        pn := s.pn - 1,
        settled := (match s.settled with
          | some b => some b
          | none => some (if 0 < s.errors.length then Batch.rejected s.errors
                          else Batch.resolved s.results)) }
    else { s with pn := s.pn - 1 }
  else
    { s with
      rest := s.rest.dropLast,
      active := s.active ++ s.rest.getLast?.toList,
      pn := s.pn - 1 }

/-- Small-step semantics of `convertMany` for a batch of `N` jobs: any
active worker may settle, and any queued `processNext` continuation may
run. -/
inductive ConvertManyStep (N : Nat) : SchedState → SchedState → Prop where
  | workerSettles (s : SchedState) (a₁ a₂ : List Job) (j : Job)
      (h : s.active = a₁ ++ j :: a₂) :
      ConvertManyStep N s (settleWorker s a₁ a₂ j)
  | processNext (s : SchedState) (h : 0 < s.pn) :
      ConvertManyStep N s (processNextFn N s)

/-- States reachable by `convertMany` started on `jobs` with capacity
`cap`. -/
inductive ConvertManyReach (jobs : List Job) (cap : Nat) : SchedState → Prop where
  | init : ConvertManyReach jobs cap (convertManyInit jobs cap)
  | step {s s' : SchedState} (hr : ConvertManyReach jobs cap s)
      (hs : ConvertManyStep jobs.length s s') : ConvertManyReach jobs cap s'

/-- A state from which no step is possible: no active worker left to
settle and no queued continuation to run. -/
def SchedTerminal (N : Nat) (s : SchedState) : Prop :=
  ∀ s', ¬ ConvertManyStep N s s'

/-- Inductive invariant of the `convertMany` state machine. -/
structure SchedInv (jobs : List Job) (cap : Nat) (s : SchedState) : Prop where
  conserve : s.rest.length + s.active.length + (s.results.length + s.errors.length)
      = jobs.length
  content : ((s.rest : Multiset Job)) + ↑s.active + ↑s.results + ↑s.errors = ↑jobs
  resOk : ∀ j ∈ s.results, j.ok = true
  errBad : ∀ j ∈ s.errors, j.ok = false
  slotBound : s.active.length + s.pn ≤ min cap jobs.length
  settledInv : ∀ b, s.settled = some b →
      s.rest = [] ∧ s.active = [] ∧
      b = (if 0 < s.errors.length then Batch.rejected s.errors
           else Batch.resolved s.results)
  progress : jobs ≠ [] → s.rest = [] → s.active = [] →
      s.settled.isSome = true ∨ 1 ≤ s.pn
  emptyActive : 1 ≤ cap → s.active = [] → s.pn = 0 → s.rest = []

/-- Termination measure of the scheduler: strictly decreases along
every step, so every run of `convertMany` is finite and ends in a
`SchedTerminal` state. -/
def schedMeasure (s : SchedState) : Nat :=
  3 * s.rest.length + 2 * s.active.length + s.pn

/-- Conclusion of claim C1 (amended): the batch promise settles only at
the point where the settled count equals the total job count, a settled
promise never changes value again, every step strictly decreases the
termination measure (so every run is finite), and every terminal
reachable state is settled. -/
def C1Concl (N : Nat) (s : SchedState) : Prop :=
  (∀ b, s.settled = some b → s.results.length + s.errors.length = N) ∧
  (∀ b s', s.settled = some b → ConvertManyStep N s s' → s'.settled = some b) ∧
  (∀ s', ConvertManyStep N s s' → schedMeasure s' < schedMeasure s) ∧
  (SchedTerminal N s → s.settled.isSome = true)

/-- Conclusion of claim C2: once the batch settles, zero failed jobs
give a resolution carrying exactly the per-job successes (all jobs),
and one or more failed jobs give a rejection carrying exactly the
failed jobs and no successes. -/
def C2Concl (jobs : List Job) (s : SchedState) (b : Batch) : Prop :=
  ((jobs.filter (fun j => !j.ok)).isEmpty = true →
      b = Batch.resolved s.results ∧ s.results.Perm jobs) ∧
  ((jobs.filter (fun j => !j.ok)).isEmpty = false →
      b = Batch.rejected s.errors ∧
      s.errors.Perm (jobs.filter (fun j => !j.ok)) ∧
      ∀ j ∈ s.errors, j.ok = false)

/-- Conclusion of claim C3: exactly `min cap N` workers are active
initially, and the number of active workers never exceeds
`min cap N`. -/
def C3Concl (jobs : List Job) (cap : Nat) (s : SchedState) : Prop :=
  (convertManyInit jobs cap).active.length = min cap jobs.length ∧
  s.active.length ≤ min cap jobs.length

/-- Witness for C2: a single failing job with capacity 1; the worker
settles, the queued continuation runs and rejects the batch. -/
def c2job : Job := ⟨0, false⟩

/-- The state after the single worker of the C2 witness settles. -/
def c2s1 : SchedState := settleWorker (convertManyInit [c2job] 1) [] [] c2job

/-- The state after the queued continuation of the C2 witness runs. -/
def c2s2 : SchedState := processNextFn 1 c2s1

/-- Model of `SVG_REGEX = /\\.svg$/i` applied to a directory entry
(source line 20): the name ends with ".svg" up to ASCII case. -/
def svgMatches (file : String) : Bool :=
  decide ((file.data.map Char.toLower).reverse.take 4 = ['g', 'v', 's', '.'])

/-- Model of `path.parse(file).name` for a directory entry (no path
separators): the name up to the last dot, except that a sole leading
dot starts no extension (Node treats ".svg" as an extensionless
name). -/
def parseNameStem (file : String) : String :=
  let cs := file.data
  let revIdx := cs.reverse.findIdx (fun c => c == '.')
  if revIdx < cs.length then
    let i := cs.length - 1 - revIdx
    if i = 0 then file else ⟨cs.take i⟩
  else file

/-- Model of `path.join(dir, file)` for a plain directory name and a
plain entry name (no normalization needed in that case). -/
def joinPath (dir file : String) : String := dir ++ "/" ++ file

/-- The file map `svg2PngDir` builds (source lines 74–80): directory
entries filtered by `SVG_REGEX`, each mapped to source path and
destination path with the same stem and extension ".png". -/
def svg2PngDirFileMap (srcDir dstDir : String) (files : List String) :
    List (String × String) :=
  (files.filter svgMatches).map
    (fun f => (joinPath srcDir f, joinPath dstDir (parseNameStem f ++ ".png")))

/-- Model of `svg2PngDir` after the directory listing resolves: it
applies the batch entry point to exactly the file map it built
(`.then(fileMap => svg2PngFiles(fileMap, size, pages))`). -/
def svg2PngDirModel {α : Type} (batch : List (String × String) → α)
    (srcDir dstDir : String) (files : List String) : α :=
  batch (svg2PngDirFileMap srcDir dstDir files)

/-- Conclusion of claim C9: the file map contains exactly the
case-insensitively matching entries, mapped to stem + ".png"
destinations, and the map is passed unchanged to the batch entry
point; plus concrete instances of the case-insensitive filter and the
stem computation. -/
def C9Concl (srcDir dstDir : String) (files : List String) : Prop :=
  (∀ pr, pr ∈ svg2PngDirFileMap srcDir dstDir files ↔
      ∃ f, f ∈ files ∧ svgMatches f = true ∧
        pr = (joinPath srcDir f, joinPath dstDir (parseNameStem f ++ ".png"))) ∧
  (∀ (α : Type) (batch : List (String × String) → α),
      svg2PngDirModel batch srcDir dstDir files
        = batch (svg2PngDirFileMap srcDir dstDir files)) ∧
  svgMatches "logo.svg" = true ∧
  svgMatches "logo.SVG" = true ∧
  svgMatches "logo.SvG" = true ∧
  svgMatches "readme.txt" = false ∧
  svgMatches "svg" = false ∧
  parseNameStem "logo.SVG" ++ ".png" = "logo.png"

/- Theorems start here. -/

/-- Claim C5: `getSVGDimensions` returns the declared width/height when
both are available and non-percentage; otherwise derives the missing
dimension from the viewBox ratio when one declared dimension and the
relevant viewBox extent are available; otherwise returns null; and a
percent-suffixed declared value is treated as absent in every branch. -/
theorem c5_getSVGDimensions_branches (doc : SvgDoc) (hf : doc.faulty = false) :
    C5Concl doc := by
  unfold C5Concl
  refine ⟨?_, ?_, ?_, ?_, ?_, ?_⟩
  · intro hw hh
    simp [getSVGDimensions, hf, hw, hh]
  · intro hh hw hvb
    simp [getSVGDimensions, hf, hw, hh, hvb]
  · intro hw hh hvb
    simp [getSVGDimensions, hf, hw, hh, hvb]
  · intro h1 h2 h3
    simp only [getSVGDimensions, hf, Bool.false_eq_true, if_false]
    rw [if_neg, if_neg, if_neg]
    · exact h3
    · exact h2
    · exact h1
  · intro v
    simp [getSVGDimensions, effDim, AttrVal.isPercentStr, AttrVal.parseFloatVal, vbWidth, vbHeight]
  · intro v
    simp [getSVGDimensions, effDim, AttrVal.isPercentStr, AttrVal.parseFloatVal, vbWidth, vbHeight]

/-- Witness for C5 at a concrete document: declared width 640, height
480, viewBox 64×48. -/
theorem c5_witness : C5Concl sampleDoc :=
  c5_getSVGDimensions_branches sampleDoc rfl

/-- Claim C6: `setSVGDimensions` is a no-op returning its input when
neither dimension is provided; otherwise sets each provided dimension
as a px attribute and removes the attribute of each unprovided one,
returning the input sizes; and on a document whose access throws it
returns the error marker instead of propagating the exception. -/
theorem c6_setSVGDimensions_behaviour (doc : SvgDoc) (s : Sizes) : C6Concl doc s := by
  unfold C6Concl
  refine ⟨?_, ?_, ?_⟩
  · intro hw hh
    simp [setSVGDimensions, hw, hh]
  · intro hp hf
    have hcond : ¬ (¬ truthy s.width ∧ ¬ truthy s.height) := by
      rcases hp with h | h
      · simp [h]
      · simp [h]
    cases hw : truthy s.width <;> cases hh : truthy s.height
    · simp [hw, hh] at hcond
    · simp [setSVGDimensions, hcond, hf, hw, hh]
    · simp [setSVGDimensions, hcond, hf, hw, hh]
    · simp [setSVGDimensions, hcond, hf, hw, hh]
  · intro hp hf
    rcases hp with h | h <;> simp [setSVGDimensions, h, hf]

/-- Claim C10: a requested dimension of value 0 is treated exactly like
an omitted one by `setSVGDimensions`, and a declared attribute parsing
to 0 is treated as absent by `getSVGDimensions`. -/
theorem c10_zero_dimension_is_omitted (doc : SvgDoc) (s : Sizes) : C10Concl doc s := by
  unfold C10Concl
  have h0 : truthy (some 0) = false := by simp [truthy]
  have hn : truthy none = false := rfl
  refine ⟨?_, ?_, ?_, ?_, ?_, ?_, ?_, ?_⟩
  · cases hh : truthy s.height <;> cases hfa : doc.faulty <;>
      simp [setSVGDimensions, hh, hfa, h0, hn]
  · cases hh : truthy s.height <;> cases hfa : doc.faulty <;>
      simp [setSVGDimensions, hh, hfa, h0, hn]
  · cases hw : truthy s.width <;> cases hfa : doc.faulty <;>
      simp [setSVGDimensions, hw, hfa, h0, hn]
  · cases hw : truthy s.width <;> cases hfa : doc.faulty <;>
      simp [setSVGDimensions, hw, hfa, h0, hn]
  · simp [getSVGDimensions, effDim, AttrVal.isPercentStr, AttrVal.parseFloatVal,
      truthy, vbWidth, vbHeight]
  · simp [getSVGDimensions, effDim, AttrVal.isPercentStr, AttrVal.parseFloatVal,
      truthy, vbWidth, vbHeight]
  · simp [getSVGDimensions, effDim, AttrVal.isPercentStr, AttrVal.parseFloatVal,
      truthy, vbWidth, vbHeight]
  · simp [getSVGDimensions, effDim, AttrVal.isPercentStr, AttrVal.parseFloatVal,
      truthy, vbWidth, vbHeight]

/-- Claim C7: when the request provides both (nonzero) dimensions and
the pipeline runs (page created, content read, load succeeded,
document not throwing), the applied viewport equals the request
exactly, for every document — in particular independently of its
declared attributes and viewBox. -/
theorem c7_requested_size_wins (src : String) (env : ConvEnv) (w h : ℚ)
    (hw : w ≠ 0) (hh : h ≠ 0)
    (hp : env.pageCreated = true) (hc : env.contentOk = true)
    (ho : env.openStatus = "success") (hf : env.doc.faulty = false) :
    (convert src ⟨some w, some h⟩ env).viewport = some ⟨some w, some h⟩ := by
  simp only [convert, hp, hc, ho]
  simp only [setSVGDimensions, truthy, hw, hh, decide_not, hf]
  simp [getSVGDimensions, effDim, AttrVal.isPercentStr, AttrVal.parseFloatVal,
    truthy, hw, hh, hf, setSVGDimensions]
  cases hrn : env.renderOk <;> simp [hrn]

/-- Witness for C7: a 100×100 request against `sampleDoc`, whose
intrinsic size is 640×480. -/
theorem c7_witness :
    (convert "img.svg" ⟨some 100, some 100⟩
        { pageCreated := true, contentOk := true, openStatus := "success",
          doc := sampleDoc, renderOk := true, renderData := "png" }).viewport
      = some ⟨some 100, some 100⟩ :=
  c7_requested_size_wins "img.svg"
    { pageCreated := true, contentOk := true, openStatus := "success",
      doc := sampleDoc, renderOk := true, renderData := "png" }
    100 100 (by norm_num) (by norm_num) rfl rfl rfl rfl

/-- Claim C8: a load status other than "success" makes the job fail with
a message embedding the source identifier and the status, and no
dimension or render step runs. -/
theorem c8_bad_open_status_fails_early (src : String) (size : Sizes) (env : ConvEnv)
    (hp : env.pageCreated = true) (hc : env.contentOk = true)
    (hs : env.openStatus ≠ "success") : C8Concl src size env := by
  unfold C8Concl
  refine ⟨?_, ⟨"File ", " has been opened with status " ++ env.openStatus, ?_⟩,
    ⟨"File " ++ src ++ " has been opened with status ", "", ?_⟩, ?_, ?_⟩ <;>
    simp [convert, hp, hc, hs, String.append_assoc]

/-- Witness for C8 at a concrete input: status "fail". -/
theorem c8_witness :
    C8Concl "img.svg" ⟨none, none⟩
      { pageCreated := true, contentOk := true, openStatus := "fail",
        doc := sampleDoc, renderOk := true, renderData := "" } :=
  c8_bad_open_status_fails_early "img.svg" ⟨none, none⟩
    { pageCreated := true, contentOk := true, openStatus := "fail",
      doc := sampleDoc, renderOk := true, renderData := "" }
    rfl rfl (by decide)

/-- Claim C4 evidence: on the path where the render context was created
but acquiring the source content failed, `convert`'s `Promise.all`
rejection bypasses the handler that defines and calls `closePage`, so
the created page is never disposed — the claim's guaranteed-disposal
property fails on this exit path. -/
theorem c4_page_leak_on_content_failure :
    (convert "img.svg" ⟨none, none⟩ contentFailEnv).pageCreated = true ∧
    (convert "img.svg" ⟨none, none⟩ contentFailEnv).pageClosed = false ∧
    (convert "img.svg" ⟨none, none⟩ contentFailEnv).outcome = .failure .fileReadFailed := by
  refine ⟨?_, ?_, ?_⟩ <;> rfl

theorem schedInv_init (jobs : List Job) (cap : Nat) :
    SchedInv jobs cap (convertManyInit jobs cap) := by
  constructor
  · simp [convertManyInit]; omega
  · show ((jobs.drop cap : Multiset Job)) + ↑(jobs.take cap) + ↑([] : List Job)
        + ↑([] : List Job) = ↑jobs
    rw [Multiset.coe_nil, add_zero, add_zero, add_comm, Multiset.coe_add,
      List.take_append_drop]
  · simp [convertManyInit]
  · simp [convertManyInit]
  · simp [convertManyInit]
  · simp [convertManyInit]
  · intro hne hrest hact
    exfalso
    have h1 : jobs.length - cap = 0 := by
      simpa [convertManyInit] using congrArg List.length hrest
    have h2 : min cap jobs.length = 0 := by
      simpa [convertManyInit] using congrArg List.length hact
    have : jobs.length = 0 := by omega
    exact hne (List.length_eq_zero.mp this)
  · intro hcap hact _
    have h2 : min cap jobs.length = 0 := by
      simpa [convertManyInit] using congrArg List.length hact
    have hlen : jobs = [] := List.length_eq_zero.mp (by omega)
    simp [convertManyInit, hlen]

theorem schedInv_step {jobs : List Job} {cap : Nat} {s s' : SchedState}
    (hinv : SchedInv jobs cap s) (hstep : ConvertManyStep jobs.length s s') :
    SchedInv jobs cap s' := by
  obtain ⟨hcon, hcontent, hres, herr, hslot, hsettled, hprog, hea⟩ := hinv
  cases hstep with
  | workerSettles a₁ a₂ j h =>
    have hlen : s.active.length = a₁.length + a₂.length + 1 := by
      simp [h]; omega
    have hact : (s.active : Multiset Job) = ↑a₁ + ({j} + ↑a₂) := by
      rw [h, ← Multiset.coe_add, ← Multiset.cons_coe, ← Multiset.singleton_add]
    rw [hact] at hcontent
    constructor
    · by_cases hj : j.ok <;> simp [settleWorker, hj] <;> omega
    · by_cases hj : j.ok <;>
        simp only [settleWorker, hj, if_true, if_false, Bool.false_eq_true] <;>
        rw [← hcontent] <;>
        simp only [← Multiset.coe_add, Multiset.coe_singleton] <;>
        abel
    · intro x hx
      by_cases hj : j.ok <;> simp [settleWorker, hj] at hx
      · rcases hx with hx | hx
        · exact hres x hx
        · rw [hx]; exact hj
      · exact hres x hx
    · intro x hx
      by_cases hj : j.ok <;> simp [settleWorker, hj] at hx
      · exact herr x hx
      · rcases hx with hx | hx
        · exact herr x hx
        · rw [hx]; simpa using hj
    · simp only [settleWorker, List.length_append]
      omega
    · intro b hb
      simp only [settleWorker] at hb
      rcases hsettled b hb with ⟨_, hact0, _⟩
      rw [hact0] at h
      exact absurd h (by simp)
    · intro _ _ _
      right
      simp [settleWorker]
    · intro _ _ hpn
      simp [settleWorker] at hpn
  | processNext hpn =>
    by_cases hrest : s.rest.isEmpty
    · have hrest' : s.rest = [] := List.isEmpty_iff.mp hrest
      by_cases hN : jobs.length ≤ s.errors.length + s.results.length
      · -- completion branch: resolve or reject (first settlement wins)
        have hact : s.active = [] := by
          rw [hrest'] at hcon
          simp at hcon
          exact List.length_eq_zero.mp (by omega)
        have hred : processNextFn jobs.length s =
            { s with
              pn := s.pn - 1,
              settled := (match s.settled with
                | some b => some b
                | none => some (if 0 < s.errors.length then Batch.rejected s.errors
                                else Batch.resolved s.results)) } := by
          simp [processNextFn, hrest, hN]
        rw [hred]
        constructor
        · simpa using hcon
        · simpa using hcontent
        · simpa using hres
        · simpa using herr
        · simp only []
          have := hslot
          simp
          omega
        · intro b hb
          simp only [] at hb
          refine ⟨hrest', hact, ?_⟩
          cases hs : s.settled with
          | some b0 =>
            rcases hsettled b0 hs with ⟨_, _, hb0⟩
            rw [hs] at hb
            simp at hb
            rw [← hb, hb0]
          | none =>
            rw [hs] at hb
            simp at hb
            exact hb.symm
        · intro _ _ _
          left
          cases hs : s.settled <;> simp [hs]
        · intro _ _ _
          exact hrest'
      · -- not all settled yet: only the continuation queue shrinks
        have hred : processNextFn jobs.length s = { s with pn := s.pn - 1 } := by
          simp [processNextFn, hrest, hN]
        rw [hred]
        constructor
        · simpa using hcon
        · simpa using hcontent
        · simpa using hres
        · simpa using herr
        · have := hslot
          simp
          omega
        · intro b hb
          simp only [] at hb
          exfalso
          rcases hsettled b hb with ⟨hr0, ha0, _⟩
          rw [hr0, ha0] at hcon
          simp at hcon
          omega
        · intro hne hr0 hact
          exfalso
          have hact' : s.active = [] := hact
          rw [hrest', hact'] at hcon
          simp at hcon
          omega
        · intro _ _ _
          exact hrest'
    · -- pop the next pending worker and start it in the freed slot
      have hne : s.rest ≠ [] := by
        intro h0
        rw [h0] at hrest
        simp at hrest
      obtain ⟨l, hl⟩ : ∃ l, s.rest.getLast? = some l :=
        Option.isSome_iff_exists.mp (List.getLast?_isSome.mpr hne)
      have hsplit : s.rest.dropLast ++ [l] = s.rest :=
        List.dropLast_append_getLast? l (Option.mem_def.mpr hl)
      have hdl : s.rest.dropLast.length + 1 = s.rest.length := by
        conv_rhs => rw [← hsplit]
        simp
      have key : ((s.rest.dropLast : Multiset Job)) + ↑([l] : List Job) = ↑s.rest := by
        rw [Multiset.coe_add, hsplit]
      have hred : processNextFn jobs.length s =
          { s with
            rest := s.rest.dropLast,
            active := s.active ++ [l],
            pn := s.pn - 1 } := by
        simp [processNextFn, hrest, hl]
      rw [hred]
      constructor
      · simp
        omega
      · rw [← hcontent]
        show ((s.rest.dropLast : Multiset Job)) + ↑(s.active ++ [l]) + ↑s.results
            + ↑s.errors = ↑s.rest + ↑s.active + ↑s.results + ↑s.errors
        rw [← key]
        simp only [← Multiset.coe_add]
        abel
      · simpa using hres
      · simpa using herr
      · have := hslot
        simp
        omega
      · intro b hb
        simp only [] at hb
        exact absurd (hsettled b hb).1 hne
      · intro _ _ hact
        exfalso
        simp at hact
      · intro _ hact _
        exfalso
        simp at hact

theorem schedInv_reach {jobs : List Job} {cap : Nat} {s : SchedState}
    (hr : ConvertManyReach jobs cap s) : SchedInv jobs cap s := by
  induction hr with
  | init => exact schedInv_init jobs cap
  | step _ hs ih => exact schedInv_step ih hs

/-- Claim C1 as amended to non-empty job maps and positive capacity:
in every reachable state the batch promise is settled only when the
settled count equals the job count, its settlement never changes, and
any state admitting no further step is settled. -/
theorem c1_batch_settles_once (jobs : List Job) (cap : Nat)
    (hne : jobs ≠ []) (hcap : 1 ≤ cap) (s : SchedState)
    (hr : ConvertManyReach jobs cap s) : C1Concl jobs.length s := by
  obtain ⟨hcon, hcontent, hres, herr, hslot, hsettled, hprog, hea⟩ := schedInv_reach hr
  refine ⟨?_, ?_, ?_, ?_⟩
  · intro b hb
    rcases hsettled b hb with ⟨hr0, ha0, _⟩
    rw [hr0, ha0] at hcon
    simpa using hcon
  · intro b s' hb hstep
    rcases hsettled b hb with ⟨hr0, ha0, _⟩
    cases hstep with
    | workerSettles a₁ a₂ j h =>
      rw [ha0] at h
      exact absurd h (by simp)
    | processNext hpn =>
      have hN : jobs.length ≤ s.errors.length + s.results.length := by
        rw [hr0, ha0] at hcon
        simp at hcon
        omega
      have hrestE : s.rest.isEmpty = true := by simp [hr0]
      simp [processNextFn, hrestE, hN, hb]
  · intro s' hstep
    cases hstep with
    | workerSettles a₁ a₂ j h =>
      have hlen : s.active.length = a₁.length + a₂.length + 1 := by
        simp [h]
        omega
      by_cases hj : j.ok
      · simp [schedMeasure, settleWorker, hj]
        omega
      · simp [schedMeasure, settleWorker, hj]
        omega
    | processNext hpn =>
      by_cases hrestE : s.rest.isEmpty
      · by_cases hN : jobs.length ≤ s.errors.length + s.results.length
        · simp [schedMeasure, processNextFn, hrestE, hN]
          omega
        · simp [schedMeasure, processNextFn, hrestE, hN]
          omega
      · have hne0 : s.rest ≠ [] := by
          intro h0
          rw [h0] at hrestE
          simp at hrestE
        obtain ⟨l, hl⟩ : ∃ l, s.rest.getLast? = some l :=
          Option.isSome_iff_exists.mp (List.getLast?_isSome.mpr hne0)
        have hdl : s.rest.dropLast.length + 1 = s.rest.length := by
          conv_rhs => rw [← List.dropLast_append_getLast? l (Option.mem_def.mpr hl)]
          simp
        simp [schedMeasure, processNextFn, hrestE, hl]
        omega
  · intro hterm
    have hact : s.active = [] := by
      cases ha : s.active with
      | nil => rfl
      | cons x xs =>
        exact absurd (ConvertManyStep.workerSettles s [] xs x (by simp [ha]))
          (hterm _)
    have hpn0 : s.pn = 0 := by
      by_contra hp
      exact absurd (ConvertManyStep.processNext s (Nat.pos_of_ne_zero hp)) (hterm _)
    have hr0 : s.rest = [] := hea hcap hact hpn0
    rcases hprog hne hr0 hact with h | h
    · exact h
    · omega

/-- Claim C1, counterexample to the unrestricted statement: for the
empty job map (any capacity), and for capacity 0 with a pending job,
the initial state is terminal — no worker ever settles, `processNext`
is never invoked — yet the promise is unsettled, even though for the
empty map the settled count already equals the total job count. -/
theorem c1_counterexample_never_settles :
    SchedTerminal 0 (convertManyInit [] 1) ∧
    (convertManyInit [] 1).settled = none ∧
    (convertManyInit [] 1).results.length + (convertManyInit [] 1).errors.length
      = ([] : List Job).length ∧
    SchedTerminal 1 (convertManyInit [⟨0, true⟩] 0) ∧
    (convertManyInit [⟨0, true⟩] 0).settled = none := by
  refine ⟨?_, rfl, rfl, ?_, rfl⟩
  · intro s' hstep
    cases hstep with
    | workerSettles a₁ a₂ j h => exact absurd h (by simp [convertManyInit])
    | processNext hpn => simp [convertManyInit] at hpn
  · intro s' hstep
    cases hstep with
    | workerSettles a₁ a₂ j h => exact absurd h (by simp [convertManyInit])
    | processNext hpn => simp [convertManyInit] at hpn

/-- Witness for C1 at the singleton job map with capacity 1. -/
theorem c1_witness : C1Concl 1 (convertManyInit [⟨0, true⟩] 1) :=
  c1_batch_settles_once [⟨0, true⟩] 1 (by simp) (by omega) _ ConvertManyReach.init

/-- Claim C2: the settled batch value is a resolution with all successes
when no job failed, and a rejection with exactly the failed jobs (and
none of the successes) when at least one failed. -/
theorem c2_batch_result_contents (jobs : List Job) (cap : Nat) (s : SchedState)
    (b : Batch) (hr : ConvertManyReach jobs cap s) (hb : s.settled = some b) :
    C2Concl jobs s b := by
  obtain ⟨hcon, hcontent, hres, herr, hslot, hsettled, hprog, hea⟩ := schedInv_reach hr
  rcases hsettled b hb with ⟨hr0, ha0, hb0⟩
  rw [hr0, ha0] at hcontent
  simp only [Multiset.coe_nil, zero_add] at hcontent
  rw [Multiset.coe_add] at hcontent
  have hperm : (s.results ++ s.errors).Perm jobs := Multiset.coe_eq_coe.mp hcontent
  have hfil := hperm.filter (fun j => !j.ok)
  rw [List.filter_append] at hfil
  have hresF : s.results.filter (fun j => !j.ok) = [] := by
    rw [List.filter_eq_nil_iff]
    intro a ha
    simp [hres a ha]
  have herrF : s.errors.filter (fun j => !j.ok) = s.errors := by
    rw [List.filter_eq_self]
    intro a ha
    simp [herr a ha]
  rw [hresF, herrF, List.nil_append] at hfil
  constructor
  · intro hempty
    have hfe : jobs.filter (fun j => !j.ok) = [] := List.isEmpty_iff.mp hempty
    have herrNil : s.errors = [] := (hfe ▸ hfil).eq_nil
    constructor
    · rw [hb0, herrNil]
      simp
    · have := hperm
      rw [herrNil, List.append_nil] at this
      exact this
  · intro hnempty
    have hfne : jobs.filter (fun j => !j.ok) ≠ [] := by
      intro h0
      rw [h0] at hnempty
      simp at hnempty
    have herrNe : s.errors ≠ [] := by
      intro h0
      rw [h0] at hfil
      exact hfne (hfil.symm.eq_nil)
    have hpos : 0 < s.errors.length := List.length_pos.mpr herrNe
    refine ⟨by rw [hb0]; simp [hpos], hfil, herr⟩

theorem c2_witness : C2Concl [c2job] c2s2 (Batch.rejected [c2job]) :=
  c2_batch_result_contents [c2job] 1 c2s2 (Batch.rejected [c2job])
    (ConvertManyReach.step
      (ConvertManyReach.step ConvertManyReach.init
        (ConvertManyStep.workerSettles _ [] [] c2job rfl))
      (ConvertManyStep.processNext _ (by decide)))
    (by decide)

/-- Claim C3: in every reachable state the number of in-flight workers
(open render contexts) is at most `min cap N`, and exactly `min cap N`
workers are launched at the start. -/
theorem c3_concurrency_bound (jobs : List Job) (cap : Nat) (_hcap : 1 ≤ cap)
    (s : SchedState) (hr : ConvertManyReach jobs cap s) : C3Concl jobs cap s := by
  obtain ⟨_, _, _, _, hslot, _, _, _⟩ := schedInv_reach hr
  exact ⟨by simp [convertManyInit], by omega⟩

/-- Witness for C3: three jobs with capacity 2 at the initial state. -/
theorem c3_witness :
    C3Concl [⟨0, true⟩, ⟨1, false⟩, ⟨2, true⟩] 2
      (convertManyInit [⟨0, true⟩, ⟨1, false⟩, ⟨2, true⟩] 2) :=
  c3_concurrency_bound [⟨0, true⟩, ⟨1, false⟩, ⟨2, true⟩] 2 (by omega) _
    ConvertManyReach.init

/-- Claim C9: the directory entry point builds its job map from exactly
the entries matching the fixed extension filter case-insensitively,
maps each source to a destination with the same stem and extension
".png", excludes everything else, and passes the map unchanged to the
batch entry point. -/
theorem c9_directory_file_map (srcDir dstDir : String) (files : List String) :
    C9Concl srcDir dstDir files := by
  unfold C9Concl
  refine ⟨?_, ?_, by decide, by decide, by decide, by decide, by decide, by decide⟩
  · intro pr
    simp only [svg2PngDirFileMap, List.mem_map, List.mem_filter]
    constructor
    · rintro ⟨f, ⟨hf, hm⟩, rfl⟩
      exact ⟨f, hf, hm, rfl⟩
    · rintro ⟨f, hf, hm, rfl⟩
      exact ⟨f, ⟨hf, hm⟩, rfl⟩
  · intro α batch
    rfl
